import Mathlib

/-!
Shallow embedding of the stochastic channel relay engine of the tun-python
repository: `channel_request/request_processor.py` and
`channel_response/response_processor.py`.

Randomness is modelled by passing the raw draws explicitly:
`random.uniform(a, b)` becomes `a + u * (b - a)` for a raw draw `u ∈ [0, 1]`,
`np.random.exponential(lam)` becomes `lam * e` for a raw standard exponential
draw `e ≥ 0`, and `np.random.normal(mu, sigma)` becomes `mu + sigma * z` for a
raw standard normal draw `z`. Machine floats are modelled as rationals.
-/

namespace TunChannel

/-- Queue names from `common.py`. -/
def REQUEST_QUEUE : String := "network_request"

/-- Queue name from `common.py`. -/
def REPLY_QUEUE : String := "network_reply"

/-- Queue name from `common.py`. -/
def REQUEST_QUEUE_AFTER_CHANNEL : String := "network_request_after_channel"

/-- Queue name from `common.py`. -/
def REPLY_QUEUE_AFTER_CHANNEL : String := "network_reply_after_channel"

/-- The `distribution: {type: ..., parameters: ...}` section of a channel in
`channel.yml`. The `uniform` constructor carries the `min_delay`/`max_delay`
entries of the `parameters` sub-mapping (written from `uni_min_ms`/`uni_max_ms`
by the configuration writer in `container_a/libs.py`); `unknown` stands for
any type string other than the three recognised ones. -/
inductive Distribution
  | exponential (lam : ℚ)
  | normal (mu sigma : ℚ)
  | uniform (dist_min_delay dist_max_delay : ℚ)
  | unknown
  deriving DecidableEq, Repr

/-- One channel section (`request_channel` or `reply_channel`) of
`channel.yml`, restricted to the fields the relay engine reads, plus the
`bit_flip` error-indicator field that the configuration plumbing carries. -/
structure ChannelParams where
  min_delay : ℚ
  max_delay : ℚ
  jitter : ℚ
  drop_probability : ℚ
  bit_flip : Nat
  distribution : Distribution
  deriving DecidableEq, Repr

/-- `random.uniform(a, b)` for the raw draw `u` (`u ∈ [0, 1]` in reality). -/
def uniformDraw (a b u : ℚ) : ℚ := a + u * (b - a)

/-- The raw random draws consumed by one `_calculate_delay` call. -/
structure Draws where
  expDraw : ℚ
  normDraw : ℚ
  u : ℚ
  uJ : ℚ
  deriving DecidableEq, Repr

namespace RequestProcessor

/-- `RequestProcessor._calculate_delay` (request_processor.py lines 22-36):
sample by distribution type — the `uniform` branch draws over the
channel-level `params['min_delay']`/`params['max_delay']` — add jitter drawn
uniformly from `[-jitter, +jitter]`, and clamp with
`max(params['min_delay'], min(delay, params['max_delay']))`. -/
def calculate_delay (params : ChannelParams) (d : Draws) : ℚ :=
  let delay :=
    match params.distribution with
    | .exponential lam => lam * d.expDraw
    | .normal mu sigma => mu + sigma * d.normDraw
    | .uniform _ _ => uniformDraw params.min_delay params.max_delay d.u
    | .unknown => uniformDraw 0 params.max_delay d.u
  let delay' := delay + uniformDraw (-params.jitter) params.jitter d.uJ
  max params.min_delay (min delay' params.max_delay)

end RequestProcessor

namespace ResponseProcessor

/-- `ResponseProcessor._calculate_delay` (response_processor.py lines 71-93):
identical to the request version except that the `uniform` branch draws over
`dist_params['min_delay']`/`dist_params['max_delay']`, the entries of the
distribution's own `parameters` mapping. -/
def calculate_delay (config : ChannelParams) (d : Draws) : ℚ :=
  let delay :=
    match config.distribution with
    | .exponential lam => lam * d.expDraw
    | .normal mu sigma => mu + sigma * d.normDraw
    | .uniform dm dM => uniformDraw dm dM d.u
    | .unknown => uniformDraw 0 config.max_delay d.u
  let delay' := delay + uniformDraw (-config.jitter) config.jitter d.uJ
  max config.min_delay (min delay' config.max_delay)

end ResponseProcessor

/-- A message header mapping, restricted to the only header the relay engine
reads or writes: the `x-retries` counter. `xRetries = none` models a dict
without an `x-retries` key. -/
structure HeaderMap where
  xRetries : Option Nat
  deriving DecidableEq, Repr

/-- `pika.BasicProperties` of a delivery, restricted to the fields the relay
engine touches. `headers = none` models Python `None`. -/
structure BasicProperties where
  headers : Option HeaderMap
  delivery_mode : Nat
  deriving DecidableEq, Repr

/-- `(properties.headers or {}).get('x-retries', 0)`. -/
def retriesOf (props : BasicProperties) : Nat :=
  (props.headers.getD ⟨none⟩).xRetries.getD 0

/-- One `channel.basic_publish` call: routing key, body bytes, and the
properties attached to the published message. -/
structure PublishedMessage where
  routing_key : String
  body : List Nat
  headers : Option HeaderMap
  delivery_mode : Nat
  deriving DecidableEq, Repr

/-- Log severity of a `logger` call. -/
inductive LogLevel
  | info
  | warning
  | error
  deriving DecidableEq, Repr

/-- One `logger.<level>(...)` call, identified by severity and a short tag of
the message text. -/
structure LogEvent where
  level : LogLevel
  tag : String
  deriving DecidableEq, Repr

/-- Effective wait (in seconds) of `threading.Timer(interval, fn)`: the timer
thread blocks on `Event.wait(interval)`, and a non-positive timeout returns
immediately, so the effective wait is the interval floored at 0. -/
def timerWait (interval : ℚ) : ℚ := max 0 interval

/-- Python exception classes relevant to the two consume loops. -/
inductive PyExc
  | queueEmpty
  | configError
  | streamLost
  | connectionClosedByBroker
  | amqpChannelError
  | keyboardInterrupt
  | other
  deriving DecidableEq, Repr

/-- What a consume loop does with an exception raised during one iteration. -/
inductive LoopAction
  | continueLoop (reconnected : Bool) (waitSecs : ℚ) (loggedError : Bool)
  | breakLoop
  | propagate
  deriving DecidableEq, Repr

/-- Observable effects of one deferred-forward task run (and, for the reverse
channel, of the retry handler it may invoke): messages published, delivery
tags put on `self.ack_queue`, log calls, and a scheduled retry resubmission
(effective wait in seconds, message to republish), if any. -/
structure ForwardEffects where
  published : List PublishedMessage
  acks : List Nat
  logs : List LogEvent
  retryScheduled : Option (ℚ × PublishedMessage)
  deriving DecidableEq, Repr

/-- The drop/forward decision taken by `_process_packet`/`_process_message`
after the configuration has been re-read successfully. -/
inductive Decision
  | dropped
  | forwardScheduled (waitSecs : ℚ)
  deriving DecidableEq, Repr

namespace RequestProcessor

/-- The `forward_packet` closure of `RequestProcessor._process_packet`
(request_processor.py lines 54-74), run by the timer thread. `publishOk` is
whether the fresh connection and `basic_publish` completed without raising.
On success it publishes the consumed body unchanged to
`REQUEST_QUEUE_AFTER_CHANNEL` with the consumed headers and
`delivery_mode=2`, logs, and puts the delivery tag on `ack_queue`; on failure
it only logs the error (no retry path on the request channel). -/
def forward_packet (publishOk : Bool) (body : List Nat)
    (properties : BasicProperties) (delivery_tag : Nat) : ForwardEffects :=
  if publishOk then
    { published := [⟨REQUEST_QUEUE_AFTER_CHANNEL, body, properties.headers, 2⟩],
      acks := [delivery_tag],
      logs := [⟨.info, "Request weitergeleitet"⟩],
      retryScheduled := none }
  else
    { published := [], acks := [],
      logs := [⟨.error, "Fehler beim Weiterleiten des Requests"⟩],
      retryScheduled := none }

/-- `RequestProcessor._process_packet` (request_processor.py lines 38-52, 74)
up to the point where the timer is started: re-reading `channel.yml` and
extracting `config['request_channel']` is modelled by `cfgLoad` (a raised
exception propagates — there is no try/except in `_process_packet`); then the
drop decision `random.random() < params['drop_probability']` with raw draw
`dropDraw`, and otherwise a timer scheduled after `_calculate_delay(params)`
milliseconds / 1000. -/
def process_packet (cfgLoad : Except PyExc ChannelParams) (dropDraw : ℚ)
    (d : Draws) : Except PyExc (Decision × List LogEvent) :=
  match cfgLoad with
  | .error e => .error e
  | .ok params =>
    if dropDraw < params.drop_probability then
      .ok (.dropped, [⟨.warning, "Request verworfen"⟩])
    else
      let delay := calculate_delay params d
      .ok (.forwardScheduled (timerWait (delay / 1000)),
           [⟨.info, "Verzoegere Request"⟩])

/-- One packet's composed lifecycle on the request channel: the consume-loop
part (`_process_packet`) followed, when a forward was scheduled, by the
deferred `forward_packet` run. -/
def packetEffects (cfgLoad : Except PyExc ChannelParams) (dropDraw : ℚ)
    (d : Draws) (publishOk : Bool) (body : List Nat)
    (properties : BasicProperties) (delivery_tag : Nat) :
    Except PyExc ForwardEffects :=
  match process_packet cfgLoad dropDraw d with
  | .error e => .error e
  | .ok (.dropped, logs) =>
    .ok { published := [], acks := [], logs := logs, retryScheduled := none }
  | .ok (.forwardScheduled _, logs) =>
    let fe := forward_packet publishOk body properties delivery_tag
    .ok { fe with logs := logs ++ fe.logs }

/-- Exception handling of the main loop of `RequestProcessor.start`
(request_processor.py lines 95-102): the only `except` clause is for
`queue.Empty`, which is handled by polling `process_data_events`; every other
exception — including one raised inside `_process_packet` and surfaced by
`process_data_events` — propagates out of `start`, terminating the loop. -/
def startHandle (e : PyExc) : LoopAction :=
  match e with
  | .queueEmpty => .continueLoop false 0 false
  | _ => .propagate

end RequestProcessor

/-- The `retry` section of `channel.yml` as used by the response processor. -/
structure RetryConfig where
  max_retries : Nat
  base_delay : ℚ
  jitter : ℚ
  deriving DecidableEq, Repr

/-- The configuration document passed to the processors at start-up:
`channel.yml` restricted to the sections the relay engine reads. `retry =
none` models a document without a `retry` key. -/
structure Config where
  request_channel : ChannelParams
  reply_channel : ChannelParams
  retry : Option RetryConfig
  deriving DecidableEq, Repr

namespace ResponseProcessor

/-- `ResponseProcessor.__init__` (response_processor.py lines 22-26):
`self.retry_config = config.get('retry', {'max_retries': 5, 'base_delay':
1000, 'jitter': 500})`. -/
def retry_config (config : Config) : RetryConfig :=
  config.retry.getD ⟨5, 1000, 500⟩

/-- Result of `ResponseProcessor._handle_retry`: either the packet is
permanently dropped (max retries reached) or a resubmission is scheduled
(effective timer wait in seconds, message to republish). -/
inductive RetryOutcome
  | dropped
  | scheduled (waitSecs : ℚ) (msg : PublishedMessage)
  deriving DecidableEq, Repr

/-- Body of the message a `RetryOutcome` would republish, if any. -/
def RetryOutcome.scheduledBody : RetryOutcome → Option (List Nat)
  | .dropped => none
  | .scheduled _ msg => some msg.body

/-- `ResponseProcessor._handle_retry` (response_processor.py lines 145-181):
read `x-retries` from the headers (defaulting the headers to `{}` and the
counter to 0); if `retries >= max_retries`, log and return; otherwise draw
jitter uniformly from `[-jitter, +jitter]` (raw draw `uJ`), compute
`delay = 2**retries * base_delay + jitter` and start a timer for
`delay / 1000` seconds that republishes the body to `REPLY_QUEUE` with
headers `{**properties.headers, 'x-retries': retries + 1}` and the original
delivery mode. -/
def handle_retry (rc : RetryConfig) (body : List Nat)
    (properties : BasicProperties) (uJ : ℚ) : RetryOutcome × List LogEvent :=
  let retries := retriesOf properties
  if rc.max_retries ≤ retries then
    (.dropped, [⟨.error, "Max Retries erreicht"⟩])
  else
    let jitter := uniformDraw (-rc.jitter) rc.jitter uJ
    let delay := (2 ^ retries : ℚ) * rc.base_delay + jitter
    (.scheduled (timerWait (delay / 1000))
      ⟨REPLY_QUEUE, body, some ⟨some (retries + 1)⟩, properties.delivery_mode⟩,
     [⟨.warning, "Retry"⟩])

/-- The `forward_message` closure of `ResponseProcessor._process_message`
(response_processor.py lines 117-143), run by the timer thread. On success it
publishes the consumed body unchanged to `REPLY_QUEUE_AFTER_CHANNEL` with the
consumed headers and `delivery_mode=2`, logs, and puts the delivery tag on
`ack_queue`; on failure it logs the error and invokes `_handle_retry`. -/
def forward_message (rc : RetryConfig) (publishOk : Bool) (body : List Nat)
    (properties : BasicProperties) (delivery_tag : Nat) (uJ : ℚ) :
    ForwardEffects :=
  if publishOk then
    { published := [⟨REPLY_QUEUE_AFTER_CHANNEL, body, properties.headers, 2⟩],
      acks := [delivery_tag],
      logs := [⟨.info, "Response gesendet"⟩],
      retryScheduled := none }
  else
    let r := handle_retry rc body properties uJ
    { published := [], acks := [],
      logs := ⟨.error, "Forward-Fehler"⟩ :: r.2,
      retryScheduled :=
        match r.1 with
        | .dropped => none
        | .scheduled w m => some (w, m) }

/-- `ResponseProcessor._process_message` (response_processor.py lines 95-115,
143) up to the point where the timer is started: re-reading `channel.yml`
and extracting `confige['reply_channel']` is modelled by `cfgLoad` (a raised
exception propagates — there is no try/except in `_process_message`); then
the drop decision and, otherwise, a timer scheduled after
`_calculate_delay()` milliseconds / 1000. -/
def process_message (cfgLoad : Except PyExc ChannelParams) (dropDraw : ℚ)
    (d : Draws) : Except PyExc (Decision × List LogEvent) :=
  match cfgLoad with
  | .error e => .error e
  | .ok config =>
    if dropDraw < config.drop_probability then
      .ok (.dropped, [⟨.info, "Verarbeite Nachricht"⟩,
                      ⟨.warning, "Response verworfen"⟩])
    else
      let delay := calculate_delay config d
      .ok (.forwardScheduled (timerWait (delay / 1000)),
           [⟨.info, "Verarbeite Nachricht"⟩, ⟨.info, "Verzoegere Response"⟩])

/-- One packet's composed lifecycle on the reverse channel: the consume-loop
part (`_process_message`) followed, when a forward was scheduled, by the
deferred `forward_message` run. -/
def messageEffects (rc : RetryConfig) (cfgLoad : Except PyExc ChannelParams)
    (dropDraw : ℚ) (d : Draws) (publishOk : Bool) (body : List Nat)
    (properties : BasicProperties) (delivery_tag : Nat) (uJ : ℚ) :
    Except PyExc ForwardEffects :=
  match process_message cfgLoad dropDraw d with
  | .error e => .error e
  | .ok (.dropped, logs) =>
    .ok { published := [], acks := [], logs := logs, retryScheduled := none }
  | .ok (.forwardScheduled _, logs) =>
    let fe := forward_message rc publishOk body properties delivery_tag uJ
    .ok { fe with logs := logs ++ fe.logs }

/-- Effects of `ResponseProcessor._reconnect` together with the
`_init_connection`/`_declare_queues` calls it makes (response_processor.py
lines 30-69): close the old connection (close errors swallowed), open a new
connection and channel, and redeclare both quorum queues. -/
structure ReconnectEffects where
  closedOld : Bool
  openedNew : Bool
  declaredQueues : List String
  logs : List LogEvent
  deriving DecidableEq, Repr

/-- `ResponseProcessor._reconnect` (response_processor.py lines 61-69). -/
def reconnect : ReconnectEffects :=
  { closedOld := true
    openedNew := true
    declaredQueues := [REPLY_QUEUE, REPLY_QUEUE_AFTER_CHANNEL]
    logs := [⟨.warning, "Versuche Reconnect"⟩] }

/-- Exception handling of `ResponseProcessor.start` (response_processor.py
lines 183-223): `queue.Empty` is handled by the inner polling loop;
`StreamLostError`, `ConnectionClosedByBroker` and `AMQPChannelError` are
logged at error level, followed by `_reconnect()` and `time.sleep(5)`, and
the outer `while True` continues; `KeyboardInterrupt` breaks the loop; any
other `Exception` — `KeyboardInterrupt` does not derive from `Exception` —
is logged at error level, followed by `time.sleep(10)` and `_reconnect()`,
and the loop continues. Nothing propagates out of `start`. -/
def startHandle (e : PyExc) : LoopAction :=
  match e with
  | .queueEmpty => .continueLoop false 0 false
  | .streamLost => .continueLoop true 5 true
  | .connectionClosedByBroker => .continueLoop true 5 true
  | .amqpChannelError => .continueLoop true 5 true
  | .keyboardInterrupt => .breakLoop
  | _ => .continueLoop true 10 true

end ResponseProcessor

/-- The ack-drain half of each `start` loop: every delivery tag taken from
`ack_queue` is passed to `channel.basic_ack`, one acknowledgment per queued
ticket, in FIFO order. -/
def issueAcks : List Nat → List Nat
  | [] => []
  | t :: ts => t :: issueAcks ts

/-- A channel-parameter set used to instantiate witness statements. -/
def sampleParams : ChannelParams := ⟨0, 100, 5, 1, 0, .unknown⟩

/-- Draining the ack queue issues exactly the queued tags, in order. -/
theorem issueAcks_id (l : List Nat) : issueAcks l = l := by
  induction l with
  | nil => rfl
  | cons t ts ih => simp [issueAcks, ih]

/-- C1: for every channel-parameter set with `min_delay ≤ max_delay` and
every random draw (any distribution type and any jitter draw), the delay
returned by `_calculate_delay` of either processor lies in
`[min_delay, max_delay]`. -/
theorem calculate_delay_clamped (p : ChannelParams) (d : Draws)
    (h : p.min_delay ≤ p.max_delay) :
    p.min_delay ≤ RequestProcessor.calculate_delay p d ∧
    RequestProcessor.calculate_delay p d ≤ p.max_delay ∧
    p.min_delay ≤ ResponseProcessor.calculate_delay p d ∧
    ResponseProcessor.calculate_delay p d ≤ p.max_delay := by
  unfold RequestProcessor.calculate_delay ResponseProcessor.calculate_delay
  exact ⟨le_max_left _ _, max_le h (min_le_right _ _),
         le_max_left _ _, max_le h (min_le_right _ _)⟩

/-- Witness for C1: the clamp bounds at a concrete parameter set with a
pathological negative normal draw and jitter exceeding the range width. -/
theorem calculate_delay_clamped_witness :
    (0 : ℚ) ≤ 100 ∧
    ((0 : ℚ) ≤ RequestProcessor.calculate_delay
        ⟨0, 100, 1000, 0, 0, .normal (-50) 30⟩ ⟨0, -7, 0, 1⟩ ∧
     RequestProcessor.calculate_delay
        ⟨0, 100, 1000, 0, 0, .normal (-50) 30⟩ ⟨0, -7, 0, 1⟩ ≤ 100 ∧
     (0 : ℚ) ≤ ResponseProcessor.calculate_delay
        ⟨0, 100, 1000, 0, 0, .normal (-50) 30⟩ ⟨0, -7, 0, 1⟩ ∧
     ResponseProcessor.calculate_delay
        ⟨0, 100, 1000, 0, 0, .normal (-50) 30⟩ ⟨0, -7, 0, 1⟩ ≤ 100) :=
  ⟨by norm_num,
   calculate_delay_clamped ⟨0, 100, 1000, 0, 0, .normal (-50) 30⟩
     ⟨0, -7, 0, 1⟩ (show (0 : ℚ) ≤ 100 by norm_num)⟩

/-- C9 counterexample: the two `_calculate_delay` functions disagree on the
`uniform` case. With channel range `[0, 100]`, distribution parameters
`min_delay = max_delay = 10`, no jitter, and the same raw draw `u = 1/2`,
the request version (which draws over the channel-level range) returns 50
while the response version (which draws over the distribution parameters)
returns 10. -/
theorem delay_functions_differ_on_uniform :
    RequestProcessor.calculate_delay
        ⟨0, 100, 0, 0, 0, .uniform 10 10⟩ ⟨0, 0, 1/2, 0⟩ ≠
    ResponseProcessor.calculate_delay
        ⟨0, 100, 0, 0, 0, .uniform 10 10⟩ ⟨0, 0, 1/2, 0⟩ := by
  norm_num [RequestProcessor.calculate_delay, ResponseProcessor.calculate_delay,
    uniformDraw, max_def, min_def]

/-- C9 (amended): the two `_calculate_delay` functions compute the same
value for the `exponential`, `normal` and unknown distribution types under
identical raw draws; for `uniform` they agree when the distribution
parameters' `min_delay`/`max_delay` equal the channel-level ones (the
request version draws over the channel-level range, the response version
over the distribution parameters). -/
theorem delay_functions_agree_off_uniform (p : ChannelParams) (d : Draws)
    (h : ∀ dm dM, p.distribution = .uniform dm dM →
          dm = p.min_delay ∧ dM = p.max_delay) :
    RequestProcessor.calculate_delay p d =
      ResponseProcessor.calculate_delay p d := by
  unfold RequestProcessor.calculate_delay ResponseProcessor.calculate_delay
  cases hd : p.distribution with
  | uniform dm dM =>
    obtain ⟨h1, h2⟩ := h dm dM hd
    subst h1
    subst h2
    rfl
  | exponential lam => rfl
  | normal mu sigma => rfl
  | unknown => rfl

/-- Witness for C9's amended theorem: agreement at a concrete exponential
parameter set. -/
theorem delay_functions_agree_off_uniform_witness :
    (∀ dm dM, (⟨0, 100, 5, 0, 0, .exponential 7⟩ : ChannelParams).distribution
        = .uniform dm dM → dm = (0 : ℚ) ∧ dM = (100 : ℚ)) ∧
    RequestProcessor.calculate_delay
        ⟨0, 100, 5, 0, 0, .exponential 7⟩ ⟨3, 0, 0, 1/2⟩ =
    ResponseProcessor.calculate_delay
        ⟨0, 100, 5, 0, 0, .exponential 7⟩ ⟨3, 0, 0, 1/2⟩ :=
  ⟨fun _ _ hc => Distribution.noConfusion hc,
   delay_functions_agree_off_uniform ⟨0, 100, 5, 0, 0, .exponential 7⟩
     ⟨3, 0, 0, 1/2⟩ (fun _ _ hc => Distribution.noConfusion hc)⟩

/-- C2: over a packet's composed lifecycle on either channel, the delivery
tag is put on the ack queue exactly once when the deferred publish completed
successfully and the drop gate did not fire, and never otherwise (publish
failure or drop); and the ack-drain loop issues exactly one broker
acknowledgment per queued ticket. -/
theorem ack_iff_publish_success (p q : ChannelParams) (d : Draws)
    (dropDraw : ℚ) (pub : Bool) (body : List Nat) (props : BasicProperties)
    (tag : Nat) (rc : RetryConfig) (uJ : ℚ) :
    (RequestProcessor.packetEffects (.ok p) dropDraw d pub body props
        tag).toOption.map ForwardEffects.acks =
      some (if dropDraw < p.drop_probability then []
            else if pub then [tag] else []) ∧
    (ResponseProcessor.messageEffects rc (.ok q) dropDraw d pub body props
        tag uJ).toOption.map ForwardEffects.acks =
      some (if dropDraw < q.drop_probability then []
            else if pub then [tag] else []) ∧
    (∀ l : List Nat, issueAcks l = l) := by
  refine ⟨?_, ?_, issueAcks_id⟩
  · by_cases hd : dropDraw < p.drop_probability <;> cases pub <;>
      simp [RequestProcessor.packetEffects, RequestProcessor.process_packet,
        RequestProcessor.forward_packet, hd, Except.toOption]
  · by_cases hd : dropDraw < q.drop_probability <;> cases pub <;>
      simp [ResponseProcessor.messageEffects, ResponseProcessor.process_message,
        ResponseProcessor.forward_message, hd, Except.toOption]

/-- C5: when the drop gate fires (`random.random() < drop_probability`), the
packet-processing operation returns with nothing published, no ack ticket
enqueued, and only the drop warning logged, on both channels. -/
theorem drop_skips_forward_and_ack (p q : ChannelParams) (d : Draws)
    (dropDraw : ℚ) (pub : Bool) (body : List Nat) (props : BasicProperties)
    (tag : Nat) (rc : RetryConfig) (uJ : ℚ)
    (h1 : dropDraw < p.drop_probability) (h2 : dropDraw < q.drop_probability) :
    RequestProcessor.packetEffects (.ok p) dropDraw d pub body props tag =
      .ok { published := [], acks := [],
            logs := [⟨.warning, "Request verworfen"⟩],
            retryScheduled := none } ∧
    ResponseProcessor.messageEffects rc (.ok q) dropDraw d pub body props
        tag uJ =
      .ok { published := [], acks := [],
            logs := [⟨.info, "Verarbeite Nachricht"⟩,
                     ⟨.warning, "Response verworfen"⟩],
            retryScheduled := none } := by
  constructor
  · simp [RequestProcessor.packetEffects, RequestProcessor.process_packet, h1]
  · simp [ResponseProcessor.messageEffects,
      ResponseProcessor.process_message, h2]

/-- Witness for C5: a concrete drop (probability 1, draw 1/2) yields empty
effects on both channels. -/
theorem drop_skips_forward_and_ack_witness :
    ((1 : ℚ) / 2 < sampleParams.drop_probability ∧
     (1 : ℚ) / 2 < sampleParams.drop_probability) ∧
    (RequestProcessor.packetEffects (.ok sampleParams) (1/2) ⟨0, 0, 0, 0⟩
        true [7] ⟨none, 2⟩ 4 =
      .ok { published := [], acks := [],
            logs := [⟨.warning, "Request verworfen"⟩],
            retryScheduled := none } ∧
     ResponseProcessor.messageEffects ⟨5, 1000, 500⟩ (.ok sampleParams) (1/2)
        ⟨0, 0, 0, 0⟩ true [7] ⟨none, 2⟩ 4 0 =
      .ok { published := [], acks := [],
            logs := [⟨.info, "Verarbeite Nachricht"⟩,
                     ⟨.warning, "Response verworfen"⟩],
            retryScheduled := none }) :=
  ⟨⟨by norm_num [sampleParams], by norm_num [sampleParams]⟩,
   drop_skips_forward_and_ack sampleParams sampleParams ⟨0, 0, 0, 0⟩ (1/2)
     true [7] ⟨none, 2⟩ 4 ⟨5, 1000, 500⟩ 0
     (by norm_num [sampleParams]) (by norm_num [sampleParams])⟩

/-- C3: on a reverse-channel forward failure with `retry-count <
max_retries`, `_handle_retry` schedules a republish of the body to the
reverse channel's inbound queue with `x-retries` incremented by exactly 1,
after an effective wait of `max(0, (2^retries * base_delay + jitter)/1000)`
seconds, where the jitter is a uniform draw from `[-jitter, +jitter]`; the
effective wait is never negative (a non-positive timer interval fires
immediately). -/
theorem retry_schedules_resubmission (rc : RetryConfig) (body : List Nat)
    (props : BasicProperties) (uJ : ℚ)
    (h : retriesOf props < rc.max_retries) :
    ResponseProcessor.handle_retry rc body props uJ =
      (.scheduled
        (timerWait (((2 ^ retriesOf props : ℚ) * rc.base_delay +
          uniformDraw (-rc.jitter) rc.jitter uJ) / 1000))
        ⟨REPLY_QUEUE, body, some ⟨some (retriesOf props + 1)⟩,
         props.delivery_mode⟩,
       [⟨.warning, "Retry"⟩]) ∧
    0 ≤ timerWait (((2 ^ retriesOf props : ℚ) * rc.base_delay +
          uniformDraw (-rc.jitter) rc.jitter uJ) / 1000) := by
  refine ⟨?_, le_max_left 0 _⟩
  unfold ResponseProcessor.handle_retry
  rw [if_neg (not_le.mpr h)]

/-- Witness for C3: a concrete retry scheduling with the default retry
configuration and a packet that has no `x-retries` header yet. -/
theorem retry_schedules_resubmission_witness :
    retriesOf ⟨none, 2⟩ < (⟨5, 1000, 500⟩ : RetryConfig).max_retries ∧
    (ResponseProcessor.handle_retry ⟨5, 1000, 500⟩ [7] ⟨none, 2⟩ 0 =
      (.scheduled
        (timerWait (((2 ^ retriesOf ⟨none, 2⟩ : ℚ) *
            (⟨5, 1000, 500⟩ : RetryConfig).base_delay +
          uniformDraw (-(⟨5, 1000, 500⟩ : RetryConfig).jitter)
            (⟨5, 1000, 500⟩ : RetryConfig).jitter 0) / 1000))
        ⟨REPLY_QUEUE, [7], some ⟨some (retriesOf ⟨none, 2⟩ + 1)⟩,
         BasicProperties.delivery_mode ⟨none, 2⟩⟩,
       [⟨.warning, "Retry"⟩]) ∧
     0 ≤ timerWait (((2 ^ retriesOf ⟨none, 2⟩ : ℚ) *
            (⟨5, 1000, 500⟩ : RetryConfig).base_delay +
          uniformDraw (-(⟨5, 1000, 500⟩ : RetryConfig).jitter)
            (⟨5, 1000, 500⟩ : RetryConfig).jitter 0) / 1000)) :=
  ⟨by decide,
   retry_schedules_resubmission ⟨5, 1000, 500⟩ [7] ⟨none, 2⟩ 0 (by decide)⟩

/-- C4: on a reverse-channel forward failure whose packet already carries
`retry-count ≥ max_retries` (read from headers, defaulting to 0 when
absent), the retry handler logs at error level and returns: no resubmission
is scheduled, nothing is published, no ack ticket is enqueued. -/
theorem retry_exhausted_drops (rc : RetryConfig) (body : List Nat)
    (props : BasicProperties) (tag : Nat) (uJ : ℚ)
    (h : rc.max_retries ≤ retriesOf props) :
    ResponseProcessor.forward_message rc false body props tag uJ =
      { published := [], acks := [],
        logs := [⟨.error, "Forward-Fehler"⟩,
                 ⟨.error, "Max Retries erreicht"⟩],
        retryScheduled := none } ∧
    ResponseProcessor.handle_retry rc body props uJ =
      (.dropped, [⟨.error, "Max Retries erreicht"⟩]) := by
  have hr : ResponseProcessor.handle_retry rc body props uJ =
      (.dropped, [⟨.error, "Max Retries erreicht"⟩]) := by
    unfold ResponseProcessor.handle_retry
    rw [if_pos h]
  refine ⟨?_, hr⟩
  simp [ResponseProcessor.forward_message, hr]

/-- Witness for C4: with `max_retries = 0` every packet is exhausted; a
packet without an `x-retries` header is dropped with only the two error
logs. -/
theorem retry_exhausted_drops_witness :
    (⟨0, 1000, 500⟩ : RetryConfig).max_retries ≤ retriesOf ⟨none, 2⟩ ∧
    (ResponseProcessor.forward_message ⟨0, 1000, 500⟩ false [7] ⟨none, 2⟩ 4 0 =
      { published := [], acks := [],
        logs := [⟨.error, "Forward-Fehler"⟩,
                 ⟨.error, "Max Retries erreicht"⟩],
        retryScheduled := none } ∧
     ResponseProcessor.handle_retry ⟨0, 1000, 500⟩ [7] ⟨none, 2⟩ 0 =
      (.dropped, [⟨.error, "Max Retries erreicht"⟩])) :=
  ⟨by decide,
   retry_exhausted_drops ⟨0, 1000, 500⟩ [7] ⟨none, 2⟩ 4 0 (by decide)⟩

/-- C6 counterexample: on the request processor a configuration failure is
not fatal to the packet only. `_process_packet` has no try/except around
the `channel.yml` read, so the exception propagates with nothing logged,
and the main loop of `RequestProcessor.start` catches only `queue.Empty`,
so the exception terminates the consume loop instead of letting it continue. -/
theorem config_error_terminates_request_loop :
    RequestProcessor.process_packet (.error .configError) 0 ⟨0, 0, 0, 0⟩ =
      .error .configError ∧
    RequestProcessor.startHandle .configError = .propagate :=
  ⟨rfl, rfl⟩

/-- C6 (amended): a configuration failure leaves the packet neither
acknowledged nor forwarded on both channels; on the reverse-channel
processor the exception is caught by the outer generic handler of `start`,
logged at error level, and the consume loop continues (reconnecting after a
10 s wait), while on the request processor the exception propagates out of
the consume loop and terminates it, with no error-level log. -/
theorem config_error_fatal_to_packet_only_on_response :
    ∀ (rc : RetryConfig) (dropDraw : ℚ) (d : Draws) (pub : Bool)
      (body : List Nat) (props : BasicProperties) (tag : Nat) (uJ : ℚ),
    ResponseProcessor.messageEffects rc (.error .configError) dropDraw d pub
        body props tag uJ = .error .configError ∧
    RequestProcessor.packetEffects (.error .configError) dropDraw d pub
        body props tag = .error .configError ∧
    ResponseProcessor.startHandle .configError = .continueLoop true 10 true ∧
    RequestProcessor.startHandle .configError = .propagate :=
  fun _ _ _ _ _ _ _ _ => ⟨rfl, rfl, rfl, rfl⟩

/-- C7 counterexample: the request processor has no transport-error
handling at all — its consume loop catches only `queue.Empty`, so
stream-lost, connection-closed and channel errors all propagate out of
`start` and terminate the processor instead of triggering a reconnect
loop. -/
theorem transport_error_terminates_request_loop :
    RequestProcessor.startHandle .streamLost = .propagate ∧
    RequestProcessor.startHandle .connectionClosedByBroker = .propagate ∧
    RequestProcessor.startHandle .amqpChannelError = .propagate :=
  ⟨rfl, rfl, rfl⟩

/-- C7 (amended): on every transport-level error the reverse-channel
processor logs the error, closes its old connection, reconnects and
redeclares both quorum queues, then waits a fixed 5 s and continues its
unbounded outer loop; no exception propagates out of its `start`. The
request processor has no such handling (see the counterexample). -/
theorem transport_error_reconnects_response :
    ResponseProcessor.startHandle .streamLost = .continueLoop true 5 true ∧
    ResponseProcessor.startHandle .connectionClosedByBroker =
      .continueLoop true 5 true ∧
    ResponseProcessor.startHandle .amqpChannelError =
      .continueLoop true 5 true ∧
    ResponseProcessor.reconnect.closedOld = true ∧
    ResponseProcessor.reconnect.declaredQueues =
      [REPLY_QUEUE, REPLY_QUEUE_AFTER_CHANNEL] ∧
    ResponseProcessor.reconnect.logs = [⟨.warning, "Versuche Reconnect"⟩] ∧
    (∀ e : PyExc, ResponseProcessor.startHandle e ≠ .propagate) := by
  refine ⟨rfl, rfl, rfl, rfl, rfl, rfl, ?_⟩
  intro e
  cases e <;> simp [ResponseProcessor.startHandle]

/-- Witness for C7's amended theorem: no exception — in particular not a
generic one — escapes the response processor's start loop. -/
theorem transport_error_reconnects_response_witness :
    ResponseProcessor.startHandle .other ≠ .propagate :=
  transport_error_reconnects_response.2.2.2.2.2.2 .other

/-- C8: the relay path preserves the payload byte-for-byte. Every message
published by a forward task of either channel carries exactly the consumed
body, the retry resubmission republishes exactly the consumed body, and the
`bit_flip` error-indicator field of the channel parameters has no influence
on a packet's composed lifecycle effects on either channel. -/
theorem relay_preserves_body :
    ∀ (pub : Bool) (body : List Nat) (props : BasicProperties) (tag : Nat)
      (rc : RetryConfig) (uJ : ℚ) (cfg : ChannelParams) (x : Nat)
      (dropDraw : ℚ) (d : Draws),
    (RequestProcessor.forward_packet pub body props tag).published.map
        PublishedMessage.body = (if pub then [body] else []) ∧
    (ResponseProcessor.forward_message rc pub body props tag uJ).published.map
        PublishedMessage.body = (if pub then [body] else []) ∧
    (ResponseProcessor.handle_retry rc body props uJ).1.scheduledBody =
      (if rc.max_retries ≤ retriesOf props then none else some body) ∧
    RequestProcessor.packetEffects (.ok { cfg with bit_flip := x }) dropDraw
        d pub body props tag =
      RequestProcessor.packetEffects (.ok cfg) dropDraw d pub body props
        tag ∧
    ResponseProcessor.messageEffects rc (.ok { cfg with bit_flip := x })
        dropDraw d pub body props tag uJ =
      ResponseProcessor.messageEffects rc (.ok cfg) dropDraw d pub body
        props tag uJ := by
  intro pub body props tag rc uJ cfg x dropDraw d
  refine ⟨?_, ?_, ?_, rfl, rfl⟩
  · cases pub <;> simp [RequestProcessor.forward_packet]
  · cases pub <;> simp [ResponseProcessor.forward_message]
  · by_cases h : rc.max_retries ≤ retriesOf props <;>
      simp [ResponseProcessor.handle_retry, h,
        ResponseProcessor.RetryOutcome.scheduledBody]

/-- C10: when the configuration document has no `retry` section, the
response processor's retry configuration is exactly the default
`{max_retries: 5, base_delay: 1000, jitter: 500}`, and both the deferred
forward task and the retry handler behave identically to those under a
configuration stating these values explicitly. -/
theorem missing_retry_section_defaults (c : Config) (h : c.retry = none) :
    ResponseProcessor.retry_config c = ⟨5, 1000, 500⟩ ∧
    (∀ (pub : Bool) (body : List Nat) (props : BasicProperties) (tag : Nat)
        (uJ : ℚ),
      ResponseProcessor.forward_message (ResponseProcessor.retry_config c)
          pub body props tag uJ =
        ResponseProcessor.forward_message ⟨5, 1000, 500⟩ pub body props tag
          uJ) ∧
    (∀ (body : List Nat) (props : BasicProperties) (uJ : ℚ),
      ResponseProcessor.handle_retry (ResponseProcessor.retry_config c) body
          props uJ =
        ResponseProcessor.handle_retry ⟨5, 1000, 500⟩ body props uJ) := by
  have hc : ResponseProcessor.retry_config c = ⟨5, 1000, 500⟩ := by
    unfold ResponseProcessor.retry_config
    rw [h]
    rfl
  exact ⟨hc, fun _ _ _ _ _ => by rw [hc], fun _ _ _ => by rw [hc]⟩

/-- Witness for C10: a concrete configuration without a `retry` section
gets the default retry configuration. -/
theorem missing_retry_section_defaults_witness :
    (⟨sampleParams, sampleParams, none⟩ : Config).retry = none ∧
    ResponseProcessor.retry_config ⟨sampleParams, sampleParams, none⟩ =
      ⟨5, 1000, 500⟩ :=
  ⟨rfl, (missing_retry_section_defaults ⟨sampleParams, sampleParams, none⟩
    rfl).1⟩

end TunChannel
